import Mathlib

/-!
Verification of the term-relay python SDK core against its specification.

The definitions below are shallow embeddings of the python source in
src/extensions/python_sdk/ (sdk.py, tmux.py, bridge.py, iterm2.py).
Bytes are modelled as natural numbers below 256 where it matters, byte
strings as lists of naturals, python exceptions as Option/Except, and
lock-protected critical sections as atomic steps of explicit state
machines.  External collaborators (the tmux binary, the bridge socket)
are modelled as oracle parameters.
-/

namespace TermRelay

/-! ### tmux.py: decode_octal

Embedding of tmux.decode_octal.  The python loop appends
int(data[i+1:i+4], 8) to a bytearray; when the three octal digits denote
a value above 255 the bytearray append raises ValueError, which the
embedding models as none. -/

/-- A byte is an ASCII octal digit (0x30..0x37). -/
def isOctDigit (b : Nat) : Bool := 0x30 ≤ b && b ≤ 0x37

/-- Value of a three-octal-digit escape. -/
def octVal (d1 d2 d3 : Nat) : Nat := (d1 - 0x30) * 64 + (d2 - 0x30) * 8 + (d3 - 0x30)

/-- Embedding of tmux.decode_octal (tmux.py lines 18-35).  Returns none
when the python code would raise, i.e. when an escape denotes a value
above 255. -/
def decode_octal : List Nat → Option (List Nat)
  | [] => some []
  | b :: d1 :: d2 :: d3 :: rest =>
    if b = 0x5C && isOctDigit d1 && isOctDigit d2 && isOctDigit d3 then
      if octVal d1 d2 d3 ≤ 255 then
        (decode_octal rest).map (fun out => octVal d1 d2 d3 :: out)
      else
        none
    else
      (decode_octal (d1 :: d2 :: d3 :: rest)).map (fun out => b :: out)
  | b :: rest => (decode_octal rest).map (fun out => b :: out)

/-- Modelled from the spec: the total octal decoder the specification
describes ("\OOO (three octal digits, each 0..7) becomes the single byte
with that value; any other byte is passed through unchanged"), kept for
comparison with the code embedding decode_octal. -/
def decode_octal_spec : List Nat → List Nat
  | [] => []
  | b :: d1 :: d2 :: d3 :: rest =>
    if b = 0x5C && isOctDigit d1 && isOctDigit d2 && isOctDigit d3 then
      octVal d1 d2 d3 :: decode_octal_spec rest
    else
      b :: decode_octal_spec (d1 :: d2 :: d3 :: rest)
  | b :: rest => b :: decode_octal_spec rest

/-! ### tmux.py: control-stream line parsing (TmuxControlSession._read_loop)

The read loop strips trailing CR/LF from the line, matches it against
the regular expression OUTPUT_RE (a caret, the word output preceded by a
percent sign, a space, a group of a percent sign and one or more digits,
a space, and a group matching the rest), drops lines whose pane differs
from target_pane, octal-decodes the payload and emits it when
non-empty. -/

/-- A byte is an ASCII decimal digit. -/
def isDigit (b : Nat) : Bool := 0x30 ≤ b && b ≤ 0x39

/-- Remove all trailing CR and LF bytes, as python bytes.rstrip does
with a CR LF strip set. -/
def rstripCRLF (l : List Nat) : List Nat :=
  (l.reverse.dropWhile (fun b => b = 0x0D || b = 0x0A)).reverse

/-- Take the maximal leading run of ASCII digits. -/
def takeDigits (l : List Nat) : List Nat × List Nat :=
  (l.takeWhile isDigit, l.dropWhile isDigit)

/-- The bytes of the literal lead-in of OUTPUT_RE: a percent sign, the
word output, a space, a percent sign. -/
def outputPrefixBytes : List Nat := [0x25, 0x6F, 0x75, 0x74, 0x70, 0x75, 0x74, 0x20, 0x25]

/-- Embedding of matching an (already rstripped) line against OUTPUT_RE
(tmux.py line 15).  Returns the pane group (a percent sign followed by
the digits) and the payload group.  The greedy digit run must be
non-empty and must be followed by a single space; the payload is
everything after that space. -/
def parseOutputLine (line : List Nat) : Option (List Nat × List Nat) :=
  if line.take 9 = outputPrefixBytes then
    if (takeDigits (line.drop 9)).1 = [] then
      none
    else
      match (takeDigits (line.drop 9)).2 with
      | 0x20 :: payload => some (0x25 :: (takeDigits (line.drop 9)).1, payload)
      | _ => none
  else
    none

/-- Embedding of the per-line behaviour of TmuxControlSession._read_loop
(tmux.py lines 185-197): the emission, if any, produced for one inbound
line, given the resolved target_pane.  none models both a dropped line
and the reader thread dying from a decode exception. -/
def readLineEmission (targetPane rawLine : List Nat) : Option (List Nat) :=
  match parseOutputLine (rstripCRLF rawLine) with
  | none => none
  | some (pane, raw) =>
    if targetPane ≠ [] ∧ pane ≠ [] ∧ pane ≠ targetPane then
      none
    else
      match decode_octal raw with
      | none => none
      | some payload => if payload = [] then none else some payload

/-! ### tmux.py: start-command parsing and nested-attach refusal -/

/-- A raised RPCError (sdk.py lines 30-34): a code and a message. -/
structure RPCErr where
  code : Int
  message : String
  deriving DecidableEq, Repr

/-- Whether a string starts with an ASCII dash, as python startswith
with a dash argument. -/
def startsWithDash (s : String) : Bool :=
  match s.data with
  | [] => false
  | c :: _ => c = '-'

/-- Embedding of the argument loop of parse_tmux_start_command
(tmux.py lines 71-85). -/
def parseTmuxArgs : List String → String → Bool → Except RPCErr (String × Bool)
  | [], target, allowNested =>
    if target = "" then
      .error ⟨-32602, "tmux target is required (example: %0)"⟩
    else
      .ok (target, allowNested)
  | arg :: rest, target, allowNested =>
    if arg = "--allow-nested" ∨ arg = "-allow-nested" then
      parseTmuxArgs rest target true
    else if startsWithDash arg then
      .error ⟨-32602, "unknown option: " ++ arg⟩
    else if target ≠ "" then
      .error ⟨-32602, "too many positional arguments: " ++ arg⟩
    else
      parseTmuxArgs rest arg allowNested

/-- Embedding of parse_tmux_start_command (tmux.py lines 63-85). -/
def parse_tmux_start_command (command : List String) : Except RPCErr (String × Bool) :=
  match command with
  | [] => .error ⟨-32602, "tmux target is required (example: %0)"⟩
  | first :: rest =>
    let args := if first = "share" then rest else first :: rest
    parseTmuxArgs args "" false

/-- Embedding of start_tmux_control_session (tmux.py lines 213-236) up
to the point where a TmuxControlSession is constructed.  The tmux binary
is external, so the pane-option query (pane_option_value) is an oracle
parameter mapping a target to either a failure message or the value of
the relay-origin pane option; session construction and start are
abstracted to the ok marker, since the claim under verification only
concerns the refusal branches that raise before any session exists. -/
def start_tmux_control_session
    (paneOpt : String → Except String String)
    (command : List String) : Except RPCErr Unit :=
  match parse_tmux_start_command command with
  | .error e => .error e
  | .ok (target, allowNested) =>
    if allowNested then
      .ok ()
    else
      match paneOpt target with
      | .error err =>
        .error ⟨-32602, "failed to inspect pane metadata for " ++ target ++ ": " ++ err⟩
      | .ok origin =>
        if origin ≠ "" then
          .error ⟨-32602, "pane " ++ target ++ " is marked as relay-managed (" ++ origin
            ++ "); use --allow-nested to override"⟩
        else
          .ok ()

/-! ### sdk.py: JSON values and the JsonRPCServer request loop

Embedding of one iteration of JsonRPCServer.run (sdk.py lines 187-221)
for a line that parsed as JSON.  Python dictionaries are modelled as
association lists (first binding wins), python truthiness of JSON values
by jfalsy. -/

mutual
/-- A parsed JSON value. -/
inductive JValue where
  | null
  | bool (b : Bool)
  | num (n : Int)
  | str (s : String)
  | arr (xs : JList)
  | obj (fields : JFields)
  deriving DecidableEq, Repr
/-- A JSON array body. -/
inductive JList where
  | nil
  | cons (v : JValue) (rest : JList)
  deriving DecidableEq, Repr
/-- A JSON object body: ordered key-value bindings. -/
inductive JFields where
  | nil
  | cons (k : String) (v : JValue) (rest : JFields)
  deriving DecidableEq, Repr
end

/-- dict.get: the first binding of a key, if any. -/
def JFields.get (k : String) : JFields → Option JValue
  | .nil => none
  | .cons k' v rest => if k' = k then some v else JFields.get k rest

/-- Python truthiness of a JSON value: None, False, 0, empty string,
empty array and empty object are falsy. -/
def jfalsy : JValue → Bool
  | .null => true
  | .bool b => !b
  | .num n => n = 0
  | .str s => s = ""
  | .arr .nil => true
  | .arr _ => false
  | .obj .nil => true
  | .obj _ => false

/-- Whether a JSON value is an object (python isinstance dict). -/
def jisObj : JValue → Bool
  | .obj _ => true
  | _ => false

/-- Except carries no DecidableEq instance of its own; decide equality
by cases. -/
instance {e a : Type} [DecidableEq e] [DecidableEq a] : DecidableEq (Except e a) := fun x y =>
  match x, y with
  | .error u, .error v =>
    if h : u = v then .isTrue (by rw [h]) else .isFalse (by intro hc; cases hc; exact h rfl)
  | .error _, .ok _ => .isFalse (by intro hc; cases hc)
  | .ok _, .error _ => .isFalse (by intro hc; cases hc)
  | .ok u, .ok v =>
    if h : u = v then .isTrue (by rw [h]) else .isFalse (by intro hc; cases hc; exact h rfl)

/-- A handler outcome: a result value, or a raised RPCError (a raised
non-RPCError exception is mapped by the server to code -32603 with the
stringified error, so it is represented by that RPCErr). -/
def Handler : Type := JValue → Except RPCErr JValue

/-- What the server does with one parsed inbound frame: nothing, or a
response frame carrying an id and a result or error. -/
inductive FrameOutcome where
  | silent
  | reply (id : JValue) (r : Except RPCErr JValue)
  deriving DecidableEq

/-- Embedding of one iteration of JsonRPCServer.run (sdk.py lines
192-221) on a frame that parsed as JSON: non-object frames and frames
without a non-empty string method are dropped; the request id defaults
to 0; params goes through the python expression (req.get of params) or
(empty dict), so falsy params become the empty object; a remaining
non-object params is answered with -32602; an unregistered method with
-32601; otherwise the handler runs and its outcome is sent. -/
def processFrame (handlers : String → Option Handler) (req : JValue) : FrameOutcome :=
  match req with
  | .obj fields =>
    match fields.get "method" with
    | some (.str m) =>
      if m = "" then .silent
      else
        let reqId := (fields.get "id").getD (.num 0)
        let params :=
          match fields.get "params" with
          | none => JValue.obj .nil
          | some p => if jfalsy p then JValue.obj .nil else p
        if !jisObj params then
          .reply reqId (.error ⟨-32602, "params must be a json object"⟩)
        else
          match handlers m with
          | none => .reply reqId (.error ⟨-32601, "method not found: " ++ m⟩)
          | some fn => .reply reqId (fn params)
    | _ => .silent
  | _ => .silent

/-! ### sdk.py: SingleSessionRPCServer handle routing and stop

Embedding of the handle-routing parts of SingleSessionRPCServer
(sdk.py lines 240-353).  The active runtime is modelled by its handle
plus the stopped flag and close count of the generic bridge runtime
behind it (bridge.py lines 88-93): stop on the runtime is idempotent
under its mutex and calls transport.close exactly when the flag was not
yet set. -/

/-- The state of a TerminalBridgeRuntime relevant to stop/close: its
handle, the stopped flag, and how many times transport.close ran. -/
structure RuntimeState where
  handle : String
  stopped : Bool
  closeCount : Nat
  deriving DecidableEq, Repr

/-- Embedding of TerminalBridgeRuntime.stop (bridge.py lines 88-93):
if already stopped do nothing, else set the flag and call
transport.close once. -/
def runtimeStop (r : RuntimeState) : RuntimeState :=
  if r.stopped then r else { r with stopped := true, closeCount := r.closeCount + 1 }

/-- Façade state: the single optional session slot together with the
runtime object it points at.  The runtime field persists after the slot
is cleared so the model can observe close counts of a stopped session;
sessionActive models (self session is not None). -/
structure FacadeState where
  sessionActive : Bool
  runtime : RuntimeState
  deriving DecidableEq, Repr

/-- Embedding of SingleSessionRPCServer._require_session (sdk.py lines
322-329): error 4004 when no session, or when a non-empty handle
differs from the active handle; otherwise the runtime. -/
def require_session (h : String) (st : FacadeState) : Except RPCErr RuntimeState :=
  if !st.sessionActive then
    .error ⟨4004, "session not found"⟩
  else if h ≠ "" ∧ h ≠ st.runtime.handle then
    .error ⟨4004, "session not found"⟩
  else
    .ok st.runtime

/-- The handle string the handlers extract: (params.get of
session_handle) or the empty string, i.e. the empty string when the key
is missing or its value is falsy, the string value otherwise (the python
code only ever receives strings here). -/
def extractHandle (params : JFields) : String :=
  match params.get "session_handle" with
  | some (.str s) => s
  | _ => ""

/-- The integer a handler extracts via int((params.get of k) or 0). -/
def extractIntD (params : JFields) (k : String) (d : Int) : Int :=
  match params.get k with
  | some (.num n) => if n = 0 then d else n
  | _ => d

/-- Embedding of SingleSessionRPCServer._resize (sdk.py lines 304-311):
require the session, reject non-positive dimensions with -32602, else
apply runtime.resize and answer ok.  The geometry side effect is
irrelevant to the routing claims and is dropped. -/
def resizeHandler (params : JFields) (st : FacadeState) : Except RPCErr JValue :=
  match require_session (extractHandle params) st with
  | .error e => .error e
  | .ok _ =>
    let rows := extractIntD params "rows" 0
    let cols := extractIntD params "cols" 0
    if rows ≤ 0 ∨ cols ≤ 0 then
      .error ⟨-32602, "rows and cols must be > 0"⟩
    else
      .ok (.obj (.cons "ok" (.bool true) .nil))

/-- Embedding of SingleSessionRPCServer._input (sdk.py lines 294-302):
require the session, base64-decode data_b64 (the python base64 module is
external, so the decoder is an oracle parameter), answer -32602 on a
decode failure — which includes a truthy non-string value, whose decode
raises — else feed the runtime and answer ok. -/
def inputHandler (dec : String → Option (List Nat)) (params : JFields)
    (st : FacadeState) : Except RPCErr JValue :=
  match require_session (extractHandle params) st with
  | .error e => .error e
  | .ok _ =>
    let p :=
      match params.get "data_b64" with
      | none => JValue.str ""
      | some v => if jfalsy v then JValue.str "" else v
    match p with
    | .str s =>
      match dec s with
      | none => .error ⟨-32602, "invalid data_b64"⟩
      | some _ => .ok (.obj (.cons "ok" (.bool true) .nil))
    | _ => .error ⟨-32602, "invalid data_b64"⟩

/-- Embedding of SingleSessionRPCServer._stop (sdk.py lines 313-320):
under the lock, if a session is active and the handle is empty or equal
to the active handle, stop the runtime and clear the slot; always answer
ok.  The boolean in the result records whether runtime.stop was invoked
by this call. -/
def stopHandler (params : JFields) (st : FacadeState) :
    FacadeState × Bool × Except RPCErr JValue :=
  let h := extractHandle params
  if st.sessionActive ∧ (h = "" ∨ h = st.runtime.handle) then
    ({ sessionActive := false, runtime := runtimeStop st.runtime }, true,
      .ok (.obj (.cons "ok" (.bool true) .nil)))
  else
    (st, false, .ok (.obj (.cons "ok" (.bool true) .nil)))

/-! ### sdk.py: the ext.start double-start race (SingleSessionRPCServer._start)

_start runs three phases (sdk.py lines 275-292): under the lock, fail
with 4001 if a session exists; outside the lock, construct the runtime
via the backend start_session; under the lock again, if a session
appeared meanwhile stop the fresh runtime and fail with 4001, else
install it.  Two concurrent _start calls are modelled as two programs of
atomic phases over a shared slot; a schedule is the list of which call
takes the next phase. -/

/-- The RPCError _start raises on a busy slot. -/
def errAlreadyRunning : RPCErr := ⟨4001, "session already running"⟩

/-- The phase a _start call is at: the first locked check, the unlocked
backend construction, the second locked check, or done. -/
inductive StartPhase where
  | checkFree
  | construct
  | install
  | done
  deriving DecidableEq, Repr

/-- One _start call in flight: its phase, whether its backend runtime
has been constructed (the construct phase ran), and its outcome (ok with
the installed runtime id, or the raised RPCError). -/
structure StartCall where
  pc : StartPhase
  constructed : Bool
  res : Option (Except RPCErr Nat)
  deriving DecidableEq, Repr

/-- Shared state of the race: the session slot (the id of the installed
runtime), both calls, and which fresh runtimes have had stop called on
them. -/
structure RaceState where
  session : Option Nat
  call0 : StartCall
  call1 : StartCall
  stopped0 : Bool
  stopped1 : Bool
  deriving DecidableEq, Repr

/-- The runtime id call i would construct. -/
def runtimeIdOf (i : Bool) : Nat := if i then 1 else 0

/-- One atomic phase of _start for one call: phase 0 is the first locked
check, phase 1 the unlocked backend construction, phase 2 the second
locked check-install-or-stop; the outcome is the new slot value, the new
call state, and whether the fresh runtime was stopped now. -/
def startPhase (session : Option Nat) (rid : Nat) (c : StartCall) :
    Option Nat × StartCall × Bool :=
  match c.pc with
  | .checkFree =>
    match session with
    | some _ => (session, { c with pc := .done, res := some (.error errAlreadyRunning) }, false)
    | none => (session, { c with pc := .construct }, false)
  | .construct => (session, { c with pc := .install, constructed := true }, false)
  | .install =>
    match session with
    | some _ => (session, { c with pc := .done, res := some (.error errAlreadyRunning) }, true)
    | none => (some rid, { c with pc := .done, res := some (.ok rid) }, false)
  | .done => (session, c, false)

/-- Run one scheduled phase of the chosen call. -/
def raceStep (st : RaceState) (i : Bool) : RaceState :=
  if i then
    match startPhase st.session 1 st.call1 with
    | (s', c', stopNow) =>
      { st with session := s', call1 := c', stopped1 := st.stopped1 || stopNow }
  else
    match startPhase st.session 0 st.call0 with
    | (s', c', stopNow) =>
      { st with session := s', call0 := c', stopped0 := st.stopped0 || stopNow }

/-- Run a schedule. -/
def raceExec (st : RaceState) : List Bool → RaceState
  | [] => st
  | i :: rest => raceExec (raceStep st i) rest

/-- Both calls pending on an empty slot. -/
def initRace : RaceState :=
  ⟨none, ⟨.checkFree, false, none⟩, ⟨.checkFree, false, none⟩, false, false⟩

/-- One call pending while a foreign session (id 2) already occupies the
slot: the sequential double-start situation. -/
def busyRace : RaceState :=
  ⟨some 2, ⟨.checkFree, false, none⟩, ⟨.checkFree, false, none⟩, false, false⟩

/-- Whether an outcome is a successful start. -/
def isOkStart : Option (Except RPCErr Nat) → Bool
  | some (.ok _) => true
  | _ => false

/-! ### bridge.py / iterm2.py / tmux.py: exit-notification gating

The generic bridge runtime (bridge.py lines 95-108) gates output on the
stopped flag and exit on the exit_sent flag, each under the runtime
mutex; the iTerm2 socket transport (iterm2.py lines 122-177) separately
gates its own exit emission on exit_emitted under the state lock, and
funnels error frames, exit frames and disconnect into that gate.  The
composition is modelled as a pipeline consuming a serialised list of
atomic events. -/

/-- A notification emitted towards the hub. -/
inductive Emission where
  | output (data : List Nat)
  | exited (reason : String)
  deriving DecidableEq, Repr

/-- The flags of TerminalBridgeRuntime guarded by its mutex. -/
structure BridgeFlags where
  stopped : Bool
  exitSent : Bool
  deriving DecidableEq, Repr

/-- An event arriving at the bridge runtime: an _on_output call, an
_on_exit call, or a stop call. -/
inductive BEvent where
  | out (data : List Nat)
  | exitEv (reason : String)
  | stopCall
  deriving DecidableEq, Repr

/-- Embedding of TerminalBridgeRuntime._on_output, _on_exit and stop
(bridge.py lines 88-108) as one atomic step per event: output is
dropped when empty or when the stopped flag is set, exit is dropped when
exit_sent is set and otherwise marks it, stop sets the stopped flag. -/
def bridgeStepEv (st : BridgeFlags) : BEvent → BridgeFlags × List Emission
  | .out d => if d = [] then (st, []) else if st.stopped then (st, []) else (st, [.output d])
  | .exitEv r => if st.exitSent then (st, []) else ({ st with exitSent := true }, [.exited r])
  | .stopCall => if st.stopped then (st, []) else ({ st with stopped := true }, [])

/-- An event arriving at the iTerm2 socket transport from the bridge
socket, or a stop call routed to the runtime. -/
inductive SEvent where
  | tOut (data : List Nat)
  | tError (message : String)
  | tExit (reason : String)
  | tDisconnect
  | sStop
  deriving DecidableEq, Repr

/-- Embedding of the transport side (iterm2.py _read_loop and
_handle_frame, lines 122-177): output frames pass through; error
frames, exit frames and socket disconnect go through _emit_exit_once,
which forwards the first of them to the runtime and swallows the rest. -/
def transportStepEv (exitEmitted : Bool) : SEvent → Bool × Option BEvent
  | .tOut d => (exitEmitted, some (.out d))
  | .tError m => if exitEmitted then (true, none) else (true, some (.exitEv m))
  | .tExit r => if exitEmitted then (true, none) else (true, some (.exitEv r))
  | .tDisconnect =>
    if exitEmitted then (true, none)
    else (true, some (.exitEv "iterm2 bridge disconnected"))
  | .sStop => (exitEmitted, some .stopCall)

/-- Transport flag and runtime flags composed. -/
structure SessionFlags where
  texit : Bool
  rt : BridgeFlags
  deriving DecidableEq, Repr

/-- One serialised system event through transport then runtime. -/
def sysStep (st : SessionFlags) (e : SEvent) : SessionFlags × List Emission :=
  match transportStepEv st.texit e with
  | (texit', none) => ({ st with texit := texit' }, [])
  | (texit', some be) =>
    match bridgeStepEv st.rt be with
    | (rt', ems) => (⟨texit', rt'⟩, ems)

/-- Run a list of system events, accumulating emissions in order. -/
def sysRun (st : SessionFlags) : List SEvent → SessionFlags × List Emission
  | [] => (st, [])
  | e :: rest =>
    ((sysRun (sysStep st e).1 rest).1,
      (sysStep st e).2 ++ (sysRun (sysStep st e).1 rest).2)

/-- The fresh-session flag state. -/
def initFlags : SessionFlags := ⟨false, ⟨false, false⟩⟩

/-- Number of exit notifications in an emission list. -/
def countExits (ems : List Emission) : Nat :=
  ems.countP (fun e => match e with | .exited _ => true | _ => false)

/-- Whether a system event is a terminal backend event (error frame,
exit frame, or socket disconnect). -/
def isExitTrigger : SEvent → Bool
  | .tError _ => true
  | .tExit _ => true
  | .tDisconnect => true
  | _ => false

/-- Embedding of TmuxControlSession._wait_loop after the child wait
returns (tmux.py lines 199-210), given the stopped flag and the child
exit code: each return path emits one exit notification.  The SIGINT
code is minus two. -/
def tmuxWaitEmissions (stoppedFlag : Bool) (code : Int) : List Emission :=
  if stoppedFlag ∧ (code = 0 ∨ code = -2) then [.exited "EOF"]
  else if code = 0 then [.exited "EOF"]
  else [.exited ("tmux process exited: " ++ toString code)]

/-- Embedding of PTYSimpleIOAdapter._notify_exit (sdk.py lines 485-489)
applied to a serialised list of calls: the one-shot exit_once gate lets
the first call through. -/
def ptyNotifyRun (gate : Bool) : List String → List Emission
  | [] => []
  | r :: rest => if gate then ptyNotifyRun gate rest else .exited r :: ptyNotifyRun true rest

/-! ### bridge.py: output racing with stop (TerminalBridgeRuntime)

_on_output takes the runtime mutex only to test the stopped flag and
emits after releasing it (bridge.py lines 95-101), while stop sets the
flag under the mutex and then returns (lines 88-93).  A reader thread
delivering one non-empty chunk and a stopper thread are modelled at the
granularity of these atomic sections; a schedule picks which thread
runs its next micro-step. -/

/-- Observable micro-events: the reader passing (or failing) its
stopped-flag check, the reader emitting the output notification, the
stop call completing its flag-set critical section, and the stop call
returning. -/
inductive StopObs where
  | checked (passed : Bool)
  | outputEmitted
  | stopSet
  | stopReturned
  deriving DecidableEq, Repr

/-- The phase of the reader thread inside one _on_output call. -/
inductive ReaderPhase where
  | check
  | emit
  | rdone
  deriving DecidableEq, Repr

/-- The phase of the stopper thread inside one stop call. -/
inductive StopperPhase where
  | setFlag
  | ret
  | sdone
  deriving DecidableEq, Repr

/-- Micro-state: the shared stopped flag, the reader phase and its saved
check result, and the stopper phase. -/
structure StopRace where
  stoppedFlag : Bool
  rpc : ReaderPhase
  passed : Bool
  spc : StopperPhase
  deriving DecidableEq, Repr

/-- One micro-step of the chosen thread (true is the reader): the reader
first runs the locked check of _on_output, then, if the check passed,
the unlocked emit; the stopper first runs the locked flag-set of stop,
then returns to its caller. -/
def stopRaceStep (st : StopRace) (thread : Bool) : StopRace × List StopObs :=
  if thread then
    match st.rpc with
    | .check => ({ st with rpc := .emit, passed := !st.stoppedFlag }, [.checked (!st.stoppedFlag)])
    | .emit =>
      if st.passed then ({ st with rpc := .rdone }, [.outputEmitted])
      else ({ st with rpc := .rdone }, [])
    | .rdone => (st, [])
  else
    match st.spc with
    | .setFlag => ({ st with stoppedFlag := true, spc := .ret }, [.stopSet])
    | .ret => ({ st with spc := .sdone }, [.stopReturned])
    | .sdone => (st, [])

/-- Run a micro-schedule, accumulating observations in order. -/
def stopRaceExec (st : StopRace) : List Bool → StopRace × List StopObs
  | [] => (st, [])
  | t :: rest =>
    ((stopRaceExec (stopRaceStep st t).1 rest).1,
      (stopRaceStep st t).2 ++ (stopRaceExec (stopRaceStep st t).1 rest).2)

/-- Both threads poised: flag clear, reader about to check, stopper
about to take the lock. -/
def initStopRace : StopRace := ⟨false, .check, false, .setFlag⟩

/-- The claim stated over an observation trace: once stop has returned,
no output notification follows. -/
def noOutputAfterStopReturn (t : List StopObs) : Prop :=
  ∀ pre post, t = pre ++ .stopReturned :: post → .outputEmitted ∉ post

/-- A sample registered handler that answers ok, for concrete frames. -/
def okHandler : Handler := fun _ => .ok (.obj (.cons "ok" (.bool true) .nil))

/-- A sample dispatch table with one registered method. -/
def demoHandlers : String → Option Handler :=
  fun m => if m = "ext.health" then some okHandler else none

/-- Invariant of one _start call relative to the shared slot: phase
bookkeeping, successful calls own the slot, failed calls saw a busy
slot and raised 4001, a failed call that had constructed its runtime
has stopped it, and a stopped runtime never sits in the slot. -/
def callInv (session : Option Nat) (rid : Nat) (stoppedR : Bool) (c : StartCall) : Prop :=
  (c.pc = .checkFree → c.res = none ∧ c.constructed = false) ∧
  (c.pc = .construct → c.res = none ∧ c.constructed = false) ∧
  (c.pc = .install → c.res = none ∧ c.constructed = true) ∧
  (∀ r, c.res = some (.ok r) → session = some rid ∧ r = rid ∧ c.pc = .done) ∧
  (∀ e, c.res = some (.error e) →
    e = errAlreadyRunning ∧ session.isSome = true ∧ (c.constructed = true → stoppedR = true)) ∧
  (stoppedR = true → c.res = some (.error errAlreadyRunning)) ∧
  (session = some rid → c.res = some (.ok rid))

/-- Invariant of the whole race from the empty slot: both call
invariants, plus the slot only ever holds a runtime of one of the two
calls. -/
def RaceInv (st : RaceState) : Prop :=
  callInv st.session 0 st.stopped0 st.call0 ∧
  callInv st.session 1 st.stopped1 st.call1 ∧
  (st.session = none ∨ st.session = some 0 ∨ st.session = some 1)

/-! ## Theorems -/

/-- Whenever the code decoder returns, it returns exactly the
replacement the specification describes. -/
theorem decode_octal_agrees_when_defined :
    ∀ l out, decode_octal l = some out → out = decode_octal_spec l := by
  intro l
  induction l using decode_octal.induct with
  | case1 =>
    intro out h
    have h' : some ([] : List Nat) = some out := h
    simp only [Option.some.injEq] at h'
    simp [decode_octal_spec, h'.symm]
  | case2 b d1 d2 d3 rest hcond hle ih =>
    intro out h
    have h' : (decode_octal rest).map (fun o => octVal d1 d2 d3 :: o) = some out := by
      rw [← h, decode_octal, if_pos hcond, if_pos hle]
    rcases Option.map_eq_some'.mp h' with ⟨o, ho, rfl⟩
    rw [decode_octal_spec, if_pos hcond, ih o ho]
  | case3 b d1 d2 d3 rest hcond hgt =>
    intro out h
    have h' : (none : Option (List Nat)) = some out := by
      rw [← h, decode_octal, if_pos hcond, if_neg hgt]
    cases h'
  | case4 b d1 d2 d3 rest hcond ih =>
    intro out h
    have h' : (decode_octal (d1 :: d2 :: d3 :: rest)).map (fun o => b :: o) = some out := by
      rw [← h, decode_octal, if_neg hcond]
    rcases Option.map_eq_some'.mp h' with ⟨o, ho, rfl⟩
    rw [decode_octal_spec, if_neg hcond, ih o ho]
  | case5 b rest hshape ih =>
    intro out h
    rcases rest with _ | ⟨d1, _ | ⟨d2, _ | ⟨d3, rest'⟩⟩⟩
    · have h' : (decode_octal []).map (fun o => b :: o) = some out := h
      rcases Option.map_eq_some'.mp h' with ⟨o, ho, rfl⟩
      show b :: o = b :: decode_octal_spec []
      rw [ih o ho]
    · have h' : (decode_octal [d1]).map (fun o => b :: o) = some out := h
      rcases Option.map_eq_some'.mp h' with ⟨o, ho, rfl⟩
      show b :: o = b :: decode_octal_spec [d1]
      rw [ih o ho]
    · have h' : (decode_octal [d1, d2]).map (fun o => b :: o) = some out := h
      rcases Option.map_eq_some'.mp h' with ⟨o, ho, rfl⟩
      show b :: o = b :: decode_octal_spec [d1, d2]
      rw [ih o ho]
    · exact (hshape d1 d2 d3 rest' rfl).elim

/-- C5: decode_octal does not return without error on every byte
string: a backslash followed by three octal digits denoting a value
above 255 (first digit 4..7) makes the python bytearray append raise
ValueError, so the decode of the four bytes backslash 4 0 0 fails,
while the specified total replacement is defined byte-wise for escapes
up to 255 (backslash 1 0 1 decodes to 65 as specified). -/
theorem decode_octal_raises_on_large_escape :
    decode_octal [0x5C, 0x34, 0x30, 0x30] = none ∧
    decode_octal [0x5C, 0x31, 0x30, 0x31] = some [65] ∧
    decode_octal_spec [0x5C, 0x31, 0x30, 0x31] = [65] := by
  decide

/-- C8: for a tmux ext.start whose parsed command does not set
allow-nested, a non-empty relay-origin pane option is refused with
-32602 and a message naming the origin and the allow-nested override,
and a failing option query is refused with -32602; both refusals happen
before any session is constructed (the ok marker is never reached). -/
theorem tmux_nested_attach_refused (paneOpt : String → Except String String)
    (command : List String) (target : String)
    (hp : parse_tmux_start_command command = .ok (target, false)) :
    (∀ origin, paneOpt target = .ok origin → origin ≠ "" →
      start_tmux_control_session paneOpt command =
        .error ⟨-32602, "pane " ++ target ++ " is marked as relay-managed (" ++ origin ++
          "); use --allow-nested to override"⟩) ∧
    (∀ msg, paneOpt target = .error msg →
      start_tmux_control_session paneOpt command =
        .error ⟨-32602, "failed to inspect pane metadata for " ++ target ++ ": " ++ msg⟩) := by
  unfold start_tmux_control_session
  rw [hp]
  constructor
  · intro origin ho hne
    simp [ho, hne]
  · intro msg hm
    simp [hm]

/-- Scenario S3 as a concrete witness: pane %9 carries origin hub-abc,
the command is the single positional %9, and the call is refused with
-32602 naming both. -/
theorem tmux_nested_attach_refused_witness :
    start_tmux_control_session (fun _ => .ok "hub-abc") ["%9"] =
      .error ⟨-32602,
        "pane %9 is marked as relay-managed (hub-abc); use --allow-nested to override"⟩ := by
  have h := (tmux_nested_attach_refused (fun _ => .ok "hub-abc") ["%9"] "%9"
    (by decide)).1 "hub-abc" rfl (by decide)
  simpa using h

/-- The pane group produced by a successful OUTPUT_RE match is never
empty: it starts with the percent-sign byte. -/
theorem parseOutputLine_pane_ne_nil {line pane raw : List Nat}
    (h : parseOutputLine line = some (pane, raw)) : pane ≠ [] := by
  unfold parseOutputLine at h
  split at h
  · split at h
    · cases h
    · split at h
      · rw [Option.some.injEq, Prod.mk.injEq] at h
        rw [← h.1]
        simp
      · cases h
  · cases h

/-- C6 counterexample: the line consisting of the output lead-in, pane
%7 and an empty payload matches OUTPUT_RE with the pane equal to the
resolved target pane, yet the read loop emits nothing, because the
decoded payload is empty — refuting the claimed if-and-only-if. -/
theorem tmux_output_iff_fails_on_empty_payload :
    parseOutputLine
        (rstripCRLF [0x25, 0x6F, 0x75, 0x74, 0x70, 0x75, 0x74, 0x20, 0x25, 0x37, 0x20, 0x0A]) =
      some ([0x25, 0x37], []) ∧
    readLineEmission [0x25, 0x37]
        [0x25, 0x6F, 0x75, 0x74, 0x70, 0x75, 0x74, 0x20, 0x25, 0x37, 0x20, 0x0A] = none := by
  decide

/-- C6 amended: for a non-empty resolved target pane, a line produces
an emission exactly when it matches OUTPUT_RE with pane equal to the
target, the payload octal-decodes without error, and the decoded
payload is non-empty; the emitted bytes are that decoded payload. -/
theorem tmux_read_loop_emission_charact (target line p : List Nat) (ht : target ≠ []) :
    readLineEmission target line = some p ↔
      ∃ raw, parseOutputLine (rstripCRLF line) = some (target, raw) ∧
        decode_octal raw = some p ∧ p ≠ [] := by
  unfold readLineEmission
  cases hpl : parseOutputLine (rstripCRLF line) with
  | none => simp
  | some pr =>
    obtain ⟨pane, raw⟩ := pr
    have hpane : pane ≠ [] := parseOutputLine_pane_ne_nil hpl
    dsimp only
    by_cases hpt : pane = target
    · subst hpt
      rw [if_neg (by simp)]
      cases hdec : decode_octal raw with
      | none =>
        constructor
        · intro h; cases h
        · rintro ⟨raw', hr, hd, hne⟩
          rw [Option.some.injEq, Prod.mk.injEq] at hr
          obtain ⟨-, rfl⟩ := hr
          rw [hdec] at hd
          cases hd
      | some payload =>
        by_cases hpe : payload = []
        · subst hpe
          dsimp only
          rw [if_pos rfl]
          constructor
          · intro h; cases h
          · rintro ⟨raw', hr, hd, hne⟩
            rw [Option.some.injEq, Prod.mk.injEq] at hr
            obtain ⟨-, rfl⟩ := hr
            rw [hdec, Option.some.injEq] at hd
            exact absurd hd.symm hne
        · dsimp only
          rw [if_neg hpe]
          constructor
          · intro h
            rw [Option.some.injEq] at h
            subst h
            exact ⟨raw, rfl, hdec, hpe⟩
          · rintro ⟨raw', hr, hd, hne⟩
            rw [Option.some.injEq, Prod.mk.injEq] at hr
            obtain ⟨-, rfl⟩ := hr
            rw [hdec, Option.some.injEq] at hd
            rw [hd]
    · rw [if_pos ⟨ht, hpane, hpt⟩]
      constructor
      · intro h; cases h
      · rintro ⟨raw', hr, _, _⟩
        rw [Option.some.injEq, Prod.mk.injEq] at hr
        exact absurd hr.1 hpt

/-- Witness for the amended C6 theorem: scenario S4, an output line for
pane %7 with payload hi is emitted as those two bytes when the target
pane is %7. -/
theorem tmux_read_loop_emission_charact_witness :
    readLineEmission [0x25, 0x37]
        [0x25, 0x6F, 0x75, 0x74, 0x70, 0x75, 0x74, 0x20, 0x25, 0x37, 0x20, 0x68, 0x69, 0x0A] =
      some [0x68, 0x69] := by
  exact (tmux_read_loop_emission_charact [0x25, 0x37]
    [0x25, 0x6F, 0x75, 0x74, 0x70, 0x75, 0x74, 0x20, 0x25, 0x37, 0x20, 0x68, 0x69, 0x0A]
    [0x68, 0x69] (by decide)).mpr
    ⟨[0x68, 0x69], by decide, by decide, by decide⟩

/-- C7 counterexample: a request frame supplying params as an empty
JSON array — a non-object — is not answered with -32602; the falsy
array is coerced to the empty object and the registered handler runs,
answering ok with id 0. -/
theorem rpc_falsy_nonobject_params_dispatched :
    processFrame demoHandlers
        (.obj (.cons "method" (.str "ext.health") (.cons "params" (.arr .nil) .nil))) =
      .reply (.num 0) (.ok (.obj (.cons "ok" (.bool true) .nil))) ∧
    processFrame demoHandlers
        (.obj (.cons "method" (.str "ext.health") (.cons "params" (.arr .nil) .nil))) ≠
      .reply (.num 0) (.error ⟨-32602, "params must be a json object"⟩) := by
  decide

/-- C7 amended: a missing params field is treated as the empty object
and dispatched; a supplied non-object params is answered with -32602
only when it is truthy — a falsy non-object (null, false, zero, empty
string, empty array) is coerced to the empty object and dispatched
normally. -/
theorem rpc_params_object_check (handlers : String → Option Handler) (m : String)
    (fn : Handler) (fields : JFields)
    (hm : m ≠ "") (hreg : handlers m = some fn)
    (hmeth : fields.get "method" = some (.str m)) :
    (fields.get "params" = none →
      processFrame handlers (.obj fields) =
        .reply ((fields.get "id").getD (.num 0)) (fn (.obj .nil))) ∧
    (∀ p, fields.get "params" = some p → jisObj p = false →
      processFrame handlers (.obj fields) =
        (if jfalsy p then .reply ((fields.get "id").getD (.num 0)) (fn (.obj .nil))
         else .reply ((fields.get "id").getD (.num 0))
           (.error ⟨-32602, "params must be a json object"⟩))) := by
  constructor
  · intro hp
    unfold processFrame
    dsimp only
    rw [hmeth]
    dsimp only
    rw [if_neg hm, hp]
    dsimp only
    rw [if_neg (by simp [jisObj]), hreg]
  · intro p hp hobj
    unfold processFrame
    dsimp only
    rw [hmeth]
    dsimp only
    rw [if_neg hm, hp]
    dsimp only
    by_cases hf : jfalsy p
    · rw [if_pos hf, if_pos hf]
      rw [if_neg (by simp [jisObj]), hreg]
    · rw [if_neg hf, if_neg hf]
      rw [if_pos (by simp [hobj])]

/-- Witness for the amended C7 theorem: with a registered method and a
truthy non-object params (a non-empty string), the response is the
-32602 params error; with params missing, the handler runs. -/
theorem rpc_params_object_check_witness :
    processFrame demoHandlers
        (.obj (.cons "method" (.str "ext.health") (.cons "params" (.str "nope") .nil))) =
      .reply (.num 0) (.error ⟨-32602, "params must be a json object"⟩) ∧
    processFrame demoHandlers (.obj (.cons "method" (.str "ext.health") .nil)) =
      .reply (.num 0) (okHandler (.obj .nil)) := by
  constructor
  · have h := (rpc_params_object_check demoHandlers "ext.health" okHandler
      (.cons "method" (.str "ext.health") (.cons "params" (.str "nope") .nil))
      (by decide) rfl rfl).2 (.str "nope") rfl rfl
    simpa using h
  · have h := (rpc_params_object_check demoHandlers "ext.health" okHandler
      (.cons "method" (.str "ext.health") .nil)
      (by decide) rfl rfl).1 rfl
    simpa using h

/-- C10: a frame carrying a registered method and valid params (missing,
falsy, or an object) but no id field is still answered, and the response
id is 0; id-less requests are not treated as notifications. -/
theorem rpc_missing_id_defaults_to_zero (handlers : String → Option Handler) (m : String)
    (fn : Handler) (fields : JFields)
    (hm : m ≠ "") (hmeth : fields.get "method" = some (.str m))
    (hid : fields.get "id" = none) (hreg : handlers m = some fn)
    (hpar : fields.get "params" = none ∨
      ∃ p, fields.get "params" = some p ∧ (jfalsy p = true ∨ jisObj p = true)) :
    ∃ r, processFrame handlers (.obj fields) = .reply (.num 0) r := by
  unfold processFrame
  dsimp only
  rw [hmeth]
  dsimp only
  rw [if_neg hm, hid]
  dsimp only [Option.getD]
  rcases hpar with hp | ⟨p, hp, hv⟩
  · rw [hp]
    dsimp only
    rw [if_neg (by simp [jisObj]), hreg]
    exact ⟨fn (.obj .nil), rfl⟩
  · rw [hp]
    dsimp only
    rcases hv with hf | ho
    · rw [if_pos hf]
      rw [if_neg (by simp [jisObj]), hreg]
      exact ⟨fn (.obj .nil), rfl⟩
    · by_cases hf : jfalsy p
      · rw [if_pos hf]
        rw [if_neg (by simp [jisObj]), hreg]
        exact ⟨fn (.obj .nil), rfl⟩
      · rw [if_neg hf]
        rw [if_neg (by simp [ho]), hreg]
        exact ⟨fn p, rfl⟩

/-- Witness for C10: a concrete id-less frame for the registered method
with params missing is answered with id 0. -/
theorem rpc_missing_id_defaults_to_zero_witness :
    ∃ r, processFrame demoHandlers (.obj (.cons "method" (.str "ext.health") .nil)) =
      .reply (.num 0) r :=
  rpc_missing_id_defaults_to_zero demoHandlers "ext.health" okHandler
    (.cons "method" (.str "ext.health") .nil) (by decide) rfl rfl rfl (.inl rfl)

/-- C4 counterexample: with a session active, an ext.resize whose
params carry no session_handle at all succeeds with ok instead of
failing with 4004, and _require_session accepts the empty handle,
returning the active runtime — the empty handle is a wildcard for
input and resize too, refuting the claim. -/
theorem resize_with_absent_handle_not_4004 :
    resizeHandler (.cons "rows" (.num 10) (.cons "cols" (.num 12) .nil))
        ⟨true, ⟨"deadbeef", false, 0⟩⟩ = .ok (.obj (.cons "ok" (.bool true) .nil)) ∧
    require_session "" ⟨true, ⟨"deadbeef", false, 0⟩⟩ = .ok ⟨"deadbeef", false, 0⟩ := by
  decide

/-- C4 amended: _require_session answers 4004 exactly when no session
is active or a non-empty handle differs from the active one; an absent
or empty handle matches the active session for ext.input and ext.resize
just as for ext.stop, so with a session active those two methods can
only fail with -32602, never 4004. -/
theorem handle_matching_empty_is_wildcard (h : String) (st : FacadeState) :
    (require_session h st = .error ⟨4004, "session not found"⟩ ↔
      st.sessionActive = false ∨ (h ≠ "" ∧ h ≠ st.runtime.handle)) ∧
    (st.sessionActive = true → require_session "" st = .ok st.runtime) ∧
    (st.sessionActive = true → ∀ params : JFields,
      (params.get "session_handle" = none ∨ params.get "session_handle" = some (.str "")) →
      (params.get "rows" = none ∨ ∃ n, params.get "rows" = some (.num n)) →
      (params.get "cols" = none ∨ ∃ n, params.get "cols" = some (.num n)) →
      (∀ e, resizeHandler params st = .error e → e.code = -32602) ∧
      (∀ dec e, inputHandler dec params st = .error e → e.code = -32602)) := by
  refine ⟨?_, ?_, ?_⟩
  · unfold require_session
    by_cases ha : st.sessionActive
    · rw [ha]
      rw [if_neg (by simp)]
      by_cases hh : h ≠ "" ∧ h ≠ st.runtime.handle
      · rw [if_pos hh]
        simp [hh]
      · rw [if_neg hh]
        simp [hh, ha]
    · rw [Bool.not_eq_true] at ha
      rw [ha]
      simp
  · intro ha
    unfold require_session
    rw [ha]
    rw [if_neg (by simp), if_neg (by simp)]
  · intro ha params hsh _ _
    have hext : extractHandle params = "" := by
      rcases hsh with hshn | hshn <;> simp [extractHandle, hshn]
    have hreq : require_session (extractHandle params) st = .ok st.runtime := by
      rw [hext]
      unfold require_session
      rw [ha]
      rw [if_neg (by simp), if_neg (by simp)]
    constructor
    · intro e he
      unfold resizeHandler at he
      rw [hreq] at he
      dsimp only at he
      split at he
      · rw [Except.error.injEq] at he
        rw [← he]
      · cases he
    · intro dec e he
      unfold inputHandler at he
      rw [hreq] at he
      dsimp only at he
      split at he
      · split at he
        · rw [Except.error.injEq] at he
          rw [← he]
        · cases he
      · rw [Except.error.injEq] at he
        rw [← he]

/-- Witness for the amended C4 theorem: a mismatched non-empty handle
against an active session is 4004, the empty handle is accepted, and a
resize routed with an empty handle can only fail with -32602. -/
theorem handle_matching_empty_is_wildcard_witness :
    (require_session "beef" ⟨true, ⟨"deadbeef", false, 0⟩⟩ =
      .error ⟨4004, "session not found"⟩) ∧
    require_session "" ⟨true, ⟨"deadbeef", false, 0⟩⟩ = .ok ⟨"deadbeef", false, 0⟩ ∧
    (∀ e, resizeHandler (.cons "rows" (.num 0) .nil) ⟨true, ⟨"deadbeef", false, 0⟩⟩ =
      .error e → e.code = -32602) := by
  refine ⟨?_, ?_, ?_⟩
  · exact (handle_matching_empty_is_wildcard "beef" ⟨true, ⟨"deadbeef", false, 0⟩⟩).1.mpr
      (.inr ⟨by decide, by decide⟩)
  · exact (handle_matching_empty_is_wildcard "" ⟨true, ⟨"deadbeef", false, 0⟩⟩).2.1 rfl
  · exact fun e he =>
      ((handle_matching_empty_is_wildcard "" ⟨true, ⟨"deadbeef", false, 0⟩⟩).2.2 rfl
        (.cons "rows" (.num 0) .nil) (.inl rfl) (.inr ⟨0, rfl⟩) (.inl rfl)).1 e he

/-- C9: ext.stop always answers ok for any handle (present, absent,
empty or mismatched) and never fails; it stops the active session
exactly when the handle is empty (or absent) or equal to the active
handle; and across two successive stop calls both answer ok while the
backend transport close runs at most once. -/
theorem ext_stop_total_and_idempotent (params params2 : JFields) (st : FacadeState)
    (hp1 : params.get "session_handle" = none ∨
      ∃ s, params.get "session_handle" = some (.str s))
    (hp2 : params2.get "session_handle" = none ∨
      ∃ s, params2.get "session_handle" = some (.str s)) :
    (∀ q : JFields, (stopHandler q st).2.2 = .ok (.obj (.cons "ok" (.bool true) .nil))) ∧
    ((stopHandler params st).2.1 = true ↔
      st.sessionActive = true ∧
        (extractHandle params = "" ∨ extractHandle params = st.runtime.handle)) ∧
    (st.runtime.stopped = false → st.runtime.closeCount = 0 →
      ((stopHandler params2 (stopHandler params st).1).2.2 =
          .ok (.obj (.cons "ok" (.bool true) .nil)) ∧
        (stopHandler params2 (stopHandler params st).1).1.runtime.closeCount ≤ 1)) := by
  refine ⟨?_, ?_, ?_⟩
  · intro q
    unfold stopHandler
    dsimp only
    split <;> rfl
  · unfold stopHandler
    by_cases hc : st.sessionActive = true ∧
        (extractHandle params = "" ∨ extractHandle params = st.runtime.handle)
    · rw [if_pos hc]
      simp [hc]
    · rw [if_neg hc]
      simp [hc]
  · intro hs hcc
    unfold stopHandler runtimeStop
    by_cases hc : st.sessionActive = true ∧
        (extractHandle params = "" ∨ extractHandle params = st.runtime.handle)
    · rw [if_pos hc]
      simp [hs, hcc]
    · rw [if_neg hc]
      by_cases hc2 : st.sessionActive = true ∧
          (extractHandle params2 = "" ∨ extractHandle params2 = st.runtime.handle)
      · rw [if_pos hc2]
        simp [hs, hcc]
      · rw [if_neg hc2]
        simp [hcc]

/-- Witness for C9: scenario S6 at concrete values — two successive
stops with the empty handle on an active fresh session both answer ok
and close the transport exactly once, never more. -/
theorem ext_stop_total_and_idempotent_witness :
    ((stopHandler .nil ⟨true, ⟨"deadbeef", false, 0⟩⟩).2.2 =
      .ok (.obj (.cons "ok" (.bool true) .nil))) ∧
    ((stopHandler .nil ⟨true, ⟨"deadbeef", false, 0⟩⟩).2.1 = true) ∧
    ((stopHandler .nil (stopHandler .nil ⟨true, ⟨"deadbeef", false, 0⟩⟩).1).2.2 =
      .ok (.obj (.cons "ok" (.bool true) .nil))) ∧
    ((stopHandler .nil (stopHandler .nil ⟨true, ⟨"deadbeef", false, 0⟩⟩).1).1.runtime.closeCount ≤ 1) := by
  have h := ext_stop_total_and_idempotent .nil .nil ⟨true, ⟨"deadbeef", false, 0⟩⟩
    (.inl rfl) (.inl rfl)
  exact ⟨h.1 .nil, h.2.1.mpr ⟨rfl, .inl rfl⟩, (h.2.2 rfl rfl).1, (h.2.2 rfl rfl).2⟩

/-- Exit count of the composed transport-and-runtime pipeline from any
state in which the transport exit gate agrees with the runtime exit
gate (both flags travel together: the first terminal event sets both
while emitting once): the run emits one exit exactly when the gates
were still open and a terminal event occurs, and none otherwise. -/
theorem countExits_append (a b : List Emission) :
    countExits (a ++ b) = countExits a + countExits b := by
  unfold countExits
  exact List.countP_append _ _ _

theorem sysRun_exit_count (evs : List SEvent) :
    ∀ stoppedFlag exitSent : Bool,
      countExits (sysRun ⟨exitSent, ⟨stoppedFlag, exitSent⟩⟩ evs).2 =
        (if exitSent = false ∧ evs.any isExitTrigger = true then 1 else 0) := by
  induction evs with
  | nil =>
    intro s ex
    cases ex <;> simp [sysRun, countExits]
  | cons e rest ih =>
    intro s ex
    rw [show (sysRun ⟨ex, ⟨s, ex⟩⟩ (e :: rest)).2 =
      (sysStep ⟨ex, ⟨s, ex⟩⟩ e).2 ++ (sysRun (sysStep ⟨ex, ⟨s, ex⟩⟩ e).1 rest).2 from rfl]
    rw [countExits_append]
    cases e with
    | tOut d =>
      have hstep : sysStep ⟨ex, ⟨s, ex⟩⟩ (.tOut d) =
          (⟨ex, ⟨s, ex⟩⟩, if d = [] then [] else if s then [] else [.output d]) := by
        unfold sysStep transportStepEv bridgeStepEv
        dsimp only
        by_cases hd : d = [] <;> cases s <;> simp [hd]
      rw [hstep]
      rw [ih s ex]
      have hce : countExits (if d = [] then [] else if s = true then [] else [.output d]) = 0 := by
        split_ifs <;> simp [countExits]
      rw [hce]
      simp [isExitTrigger]
    | sStop =>
      have hstep : sysStep ⟨ex, ⟨s, ex⟩⟩ .sStop =
          ((⟨ex, ⟨if s then s else true, ex⟩⟩ : SessionFlags), ([] : List Emission)) := by
        unfold sysStep transportStepEv bridgeStepEv
        dsimp only
        cases s <;> simp
      rw [hstep]
      cases s <;>
        first
        | (rw [show (if (true : Bool) then true else true) = true from rfl, ih true ex]
           simp [countExits, isExitTrigger])
        | (rw [show (if (false : Bool) then false else true) = true from rfl, ih true ex]
           simp [countExits, isExitTrigger])
    | tError m =>
      cases ex with
      | true =>
        have hstep : sysStep ⟨true, ⟨s, true⟩⟩ (.tError m) =
            ((⟨true, ⟨s, true⟩⟩ : SessionFlags), ([] : List Emission)) := by
          unfold sysStep transportStepEv bridgeStepEv
          simp
        rw [hstep, ih s true]
        simp [countExits]
      | false =>
        have hstep : sysStep ⟨false, ⟨s, false⟩⟩ (.tError m) =
            ((⟨true, ⟨s, true⟩⟩ : SessionFlags), [Emission.exited m]) := by
          unfold sysStep transportStepEv bridgeStepEv
          simp
        rw [hstep, ih s true]
        simp [countExits, isExitTrigger]
    | tExit r =>
      cases ex with
      | true =>
        have hstep : sysStep ⟨true, ⟨s, true⟩⟩ (.tExit r) =
            ((⟨true, ⟨s, true⟩⟩ : SessionFlags), ([] : List Emission)) := by
          unfold sysStep transportStepEv bridgeStepEv
          simp
        rw [hstep, ih s true]
        simp [countExits]
      | false =>
        have hstep : sysStep ⟨false, ⟨s, false⟩⟩ (.tExit r) =
            ((⟨true, ⟨s, true⟩⟩ : SessionFlags), [Emission.exited r]) := by
          unfold sysStep transportStepEv bridgeStepEv
          simp
        rw [hstep, ih s true]
        simp [countExits, isExitTrigger]
    | tDisconnect =>
      cases ex with
      | true =>
        have hstep : sysStep ⟨true, ⟨s, true⟩⟩ .tDisconnect =
            ((⟨true, ⟨s, true⟩⟩ : SessionFlags), ([] : List Emission)) := by
          unfold sysStep transportStepEv bridgeStepEv
          simp
        rw [hstep, ih s true]
        simp [countExits]
      | false =>
        have hstep : sysStep ⟨false, ⟨s, false⟩⟩ .tDisconnect =
            ((⟨true, ⟨s, true⟩⟩ : SessionFlags),
              [Emission.exited "iterm2 bridge disconnected"]) := by
          unfold sysStep transportStepEv bridgeStepEv
          simp
        rw [hstep, ih s true]
        simp [countExits, isExitTrigger]

/-- Once the PTY one-shot exit gate is set, no further notify call
emits. -/
theorem ptyNotifyRun_gate_closed (rs : List String) :
    countExits (ptyNotifyRun true rs) = 0 := by
  induction rs with
  | nil => simp [ptyNotifyRun, countExits]
  | cons r rest ih => simpa [ptyNotifyRun, countExits] using ih

/-- C2: each backend delivers exactly one exit notification per session
and never more — the bridge pipeline emits at most one exit under any
serialised interleaving of output frames, error frames, exit frames,
disconnects and stop calls, and exactly one whenever the interleaving
contains a terminal backend event; the tmux wait loop emits exactly one
exit for every stopped-flag and exit-code combination; and the PTY
notify gate lets exactly the first of any non-empty series of exit
notifications through. -/
theorem session_exit_exactly_once (evs : List SEvent) :
    countExits (sysRun initFlags evs).2 ≤ 1 ∧
    (evs.any isExitTrigger = true → countExits (sysRun initFlags evs).2 = 1) ∧
    (∀ stoppedFlag : Bool, ∀ code : Int, countExits (tmuxWaitEmissions stoppedFlag code) = 1) ∧
    (∀ reasons : List String, countExits (ptyNotifyRun false reasons) ≤ 1 ∧
      (reasons ≠ [] → countExits (ptyNotifyRun false reasons) = 1)) := by
  have hmain := sysRun_exit_count evs false false
  refine ⟨?_, ?_, ?_, ?_⟩
  · rw [show initFlags = ⟨false, ⟨false, false⟩⟩ from rfl, hmain]
    split <;> simp
  · intro htr
    rw [show initFlags = ⟨false, ⟨false, false⟩⟩ from rfl, hmain, if_pos ⟨rfl, htr⟩]
  · intro stoppedFlag code
    unfold tmuxWaitEmissions
    split_ifs <;> simp [countExits]
  · intro reasons
    cases reasons with
    | nil => simp [ptyNotifyRun, countExits]
    | cons r rest =>
      have h1 : countExits (ptyNotifyRun false (r :: rest)) = 1 := by
        simpa [ptyNotifyRun, countExits] using ptyNotifyRun_gate_closed rest
      exact ⟨by rw [h1], fun _ => h1⟩

/-- Witness for C2: a concrete interleaving with a stop, an output, a
disconnect and a late error frame yields exactly one exit; the tmux
wait loop after a stop with the interrupt code emits exactly one exit;
a PTY exit race of two notify calls emits exactly one. -/
theorem session_exit_exactly_once_witness :
    countExits (sysRun initFlags [.sStop, .tOut [1], .tDisconnect, .tError "boom"]).2 = 1 ∧
    countExits (tmuxWaitEmissions true (-2)) = 1 ∧
    countExits (ptyNotifyRun false ["EOF", "exit status 3"]) = 1 := by
  refine ⟨?_, ?_, ?_⟩
  · exact (session_exit_exactly_once [.sStop, .tOut [1], .tDisconnect, .tError "boom"]).2.1
      (by decide)
  · exact (session_exit_exactly_once []).2.2.1 true (-2)
  · exact ((session_exit_exactly_once []).2.2.2 ["EOF", "exit status 3"]).2 (by decide)

/-- Once the stopped flag is set it stays set. -/
theorem stopRaceStep_preserves_stopped (st : StopRace) (t : Bool)
    (h : st.stoppedFlag = true) : (stopRaceStep st t).1.stoppedFlag = true := by
  obtain ⟨f, rpc, p, spc⟩ := st
  cases h
  cases t <;> cases rpc <;> cases p <;> cases spc <;> simp [stopRaceStep]

/-- With the stopped flag set, a single micro-step never observes a
passing check. -/
theorem stopRaceStep_no_pass (st : StopRace) (t : Bool)
    (h : st.stoppedFlag = true) : StopObs.checked true ∉ (stopRaceStep st t).2 := by
  obtain ⟨f, rpc, p, spc⟩ := st
  cases h
  cases t <;> cases rpc <;> cases p <;> cases spc <;> simp [stopRaceStep]

/-- With the stopped flag set, no later micro-step in any schedule
observes a passing check. -/
theorem stopRaceExec_stopped_no_pass (sched : List Bool) :
    ∀ st : StopRace, st.stoppedFlag = true →
      StopObs.checked true ∉ (stopRaceExec st sched).2 := by
  induction sched with
  | nil =>
    intro st _
    simp [stopRaceExec]
  | cons t rest ih =>
    intro st h
    rw [show (stopRaceExec st (t :: rest)).2 =
      (stopRaceStep st t).2 ++ (stopRaceExec (stopRaceStep st t).1 rest).2 from rfl]
    intro hmem
    rcases List.mem_append.mp hmem with hm | hm
    · exact stopRaceStep_no_pass st t h hm
    · exact ih _ (stopRaceStep_preserves_stopped st t h) hm

/-- The micro-steps preserve the bookkeeping that the stopper being at
its return phase implies the flag is already set. -/
theorem stopRaceStep_preserves_retinv (st : StopRace) (t : Bool)
    (h : st.spc = .ret → st.stoppedFlag = true) :
    (stopRaceStep st t).1.spc = .ret → (stopRaceStep st t).1.stoppedFlag = true := by
  obtain ⟨f, rpc, p, spc⟩ := st
  cases t <;> cases rpc <;> cases p <;> cases spc <;>
    simp [stopRaceStep] <;> simp_all

/-- Generalised suffix lemma: in any trace from a state whose stopper
return phase implies the flag, every observation after a stop-set or a
stop-returned marker was produced with the flag set, so no passing
check follows either marker. -/
theorem stopRaceExec_marker_no_pass (x : StopObs)
    (hx : x = .stopSet ∨ x = .stopReturned) (sched : List Bool) :
    ∀ st : StopRace, (st.spc = .ret → st.stoppedFlag = true) →
      ∀ pre post, (stopRaceExec st sched).2 = pre ++ x :: post →
        StopObs.checked true ∉ post := by
  induction sched with
  | nil =>
    intro st _ pre post h
    simp [stopRaceExec] at h
  | cons t rest ih =>
    intro st hinv pre post h
    rw [show (stopRaceExec st (t :: rest)).2 =
      (stopRaceStep st t).2 ++ (stopRaceExec (stopRaceStep st t).1 rest).2 from rfl] at h
    have hinv' := stopRaceStep_preserves_retinv st t hinv
    obtain ⟨f, rpc, p, spc⟩ := st
    cases t with
    | true =>
      cases rpc with
      | check =>
        cases pre with
        | nil =>
          rw [List.nil_append] at h
          have h' := (List.cons.injEq _ _ _ _).mp h
          rcases hx with hx | hx <;> rw [hx] at h' <;> exact StopObs.noConfusion h'.1
        | cons y pre' =>
          have h' := (List.cons.injEq _ _ _ _).mp h
          exact ih _ hinv' pre' post h'.2
      | emit =>
        cases p with
        | true =>
          cases pre with
          | nil =>
            rw [List.nil_append] at h
            have h' := (List.cons.injEq _ _ _ _).mp h
            rcases hx with hx | hx <;> rw [hx] at h' <;> exact StopObs.noConfusion h'.1
          | cons y pre' =>
            have h' := (List.cons.injEq _ _ _ _).mp h
            exact ih _ hinv' pre' post h'.2
        | false =>
          rw [show (stopRaceStep ⟨f, .emit, false, spc⟩ true).2 = [] from rfl,
            List.nil_append] at h
          exact ih _ hinv' pre post h
      | rdone =>
        rw [show (stopRaceStep ⟨f, .rdone, p, spc⟩ true).2 = [] from rfl,
          List.nil_append] at h
        exact ih _ hinv' pre post h
    | false =>
      cases spc with
      | setFlag =>
        cases pre with
        | nil =>
          rw [List.nil_append] at h
          have htail : (stopRaceExec (stopRaceStep ⟨f, rpc, p, .setFlag⟩ false).1 rest).2
              = post := by
            have h' := (List.cons.injEq _ _ _ _).mp h
            exact h'.2
          rw [← htail]
          exact stopRaceExec_stopped_no_pass rest _ rfl
        | cons y pre' =>
          have h' := (List.cons.injEq _ _ _ _).mp h
          exact ih _ hinv' pre' post h'.2
      | ret =>
        cases pre with
        | nil =>
          rw [List.nil_append] at h
          have htail : (stopRaceExec (stopRaceStep ⟨f, rpc, p, .ret⟩ false).1 rest).2
              = post := by
            have h' := (List.cons.injEq _ _ _ _).mp h
            exact h'.2
          rw [← htail]
          have hf : f = true := hinv rfl
          cases hf
          exact stopRaceExec_stopped_no_pass rest _ rfl
        | cons y pre' =>
          have h' := (List.cons.injEq _ _ _ _).mp h
          exact ih _ hinv' pre' post h'.2
      | sdone =>
        rw [show (stopRaceStep ⟨f, rpc, p, .sdone⟩ false).2 = [] from rfl,
          List.nil_append] at h
        exact ih _ hinv' pre post h

/-- C3 counterexample: the schedule in which the reader passes its
stopped-flag check, then stop sets the flag and returns, and only then
the reader performs its unlocked emit, produces an output notification
after stop has returned — refuting the claim that no event.output
follows a returned stop. -/
theorem output_emitted_after_stop_returned :
    (stopRaceExec initStopRace [true, false, false, true]).2 =
      [.checked true, .stopSet, .stopReturned, .outputEmitted] ∧
    ¬ noOutputAfterStopReturn (stopRaceExec initStopRace [true, false, false, true]).2 := by
  constructor
  · rfl
  · intro hP
    have hmem := hP [.checked true, .stopSet] [.outputEmitted] (by rfl)
    exact hmem (by simp)

/-- C3 amended: the runtime guarantees the weaker property that no
_on_output check passes once stop has set the stopped flag — in every
schedule, no passing check is observed after the stop-set step, nor
after the stop-returned step; output delivered after stop returns can
only come from a check that already passed before stop set the flag
(as the counterexample schedule exhibits). -/
theorem no_check_passes_after_stop (sched : List Bool) :
    (∀ pre post, (stopRaceExec initStopRace sched).2 = pre ++ .stopSet :: post →
      StopObs.checked true ∉ post) ∧
    (∀ pre post, (stopRaceExec initStopRace sched).2 = pre ++ .stopReturned :: post →
      StopObs.checked true ∉ post) := by
  constructor
  · exact stopRaceExec_marker_no_pass .stopSet (.inl rfl) sched initStopRace (by intro h; cases h)
  · exact stopRaceExec_marker_no_pass .stopReturned (.inr rfl) sched initStopRace
      (by intro h; cases h)

/-- Witness for the amended C3 theorem: in the schedule where stop runs
first, the trace is stop-set, stop-returned, then a failing check, and
no passing check follows the stop-returned marker. -/
theorem no_check_passes_after_stop_witness :
    (stopRaceExec initStopRace [false, false, true, true]).2 =
      [.stopSet, .stopReturned, .checked false] ∧
    StopObs.checked true ∉ [StopObs.checked false] := by
  refine ⟨rfl, ?_⟩
  exact (no_check_passes_after_stop [false, false, true, true]).2 [.stopSet]
    [.checked false] rfl

/-- A start phase never clears the slot: it keeps the session or, when
the slot was empty, installs its own runtime. -/
theorem startPhase_session_cases (session : Option Nat) (rid : Nat) (c : StartCall) :
    (startPhase session rid c).1 = session ∨
      (session = none ∧ (startPhase session rid c).1 = some rid) := by
  obtain ⟨pc, con, res⟩ := c
  cases pc <;> cases session <;> simp [startPhase]

/-- One phase of a call preserves its own invariant. -/
theorem startPhase_inv_self (session : Option Nat) (rid : Nat) (stR : Bool) (c : StartCall)
    (h : callInv session rid stR c) :
    callInv (startPhase session rid c).1 rid (stR || (startPhase session rid c).2.2)
      (startPhase session rid c).2.1 := by
  obtain ⟨pc, con, res⟩ := c
  obtain ⟨h1, h2, h3, h4, h5, h6, h7⟩ := h
  simp only at h1 h2 h3 h4 h5 h6 h7
  cases pc with
  | checkFree =>
    obtain ⟨hres, hcon⟩ := h1 rfl
    subst hres
    subst hcon
    cases session with
    | none =>
      show callInv none rid (stR || false) ⟨.construct, false, none⟩
      rw [Bool.or_false]
      unfold callInv
      refine ⟨by simp, by simp, by simp, by simp, by simp, ?_, by simp⟩
      intro hst
      simpa using h6 hst
    | some s =>
      show callInv (some s) rid (stR || false) ⟨.done, false, some (.error errAlreadyRunning)⟩
      rw [Bool.or_false]
      unfold callInv
      refine ⟨by simp, by simp, by simp, by simp, ?_, by simp, ?_⟩
      · intro e he
        simp only [Option.some.injEq, Except.error.injEq] at he
        exact ⟨he.symm, rfl, by simp⟩
      · intro hh
        exact absurd (h7 hh) (by simp)
  | construct =>
    obtain ⟨hres, hcon⟩ := h2 rfl
    subst hres
    subst hcon
    show callInv session rid (stR || false) ⟨.install, true, none⟩
    rw [Bool.or_false]
    unfold callInv
    refine ⟨by simp, by simp, by simp, by simp, by simp, ?_, ?_⟩
    · intro hst
      simpa using h6 hst
    · intro hh
      exact absurd (h7 hh) (by simp)
  | install =>
    obtain ⟨hres, hcon⟩ := h3 rfl
    subst hres
    subst hcon
    cases session with
    | none =>
      show callInv (some rid) rid (stR || false) ⟨.done, true, some (.ok rid)⟩
      rw [Bool.or_false]
      unfold callInv
      refine ⟨by simp, by simp, by simp, ?_, by simp, ?_, by simp⟩
      · intro r hr
        simp only [Option.some.injEq, Except.ok.injEq] at hr
        exact ⟨rfl, hr.symm, rfl⟩
      · intro hst
        simpa using h6 hst
    | some s =>
      show callInv (some s) rid (stR || true) ⟨.done, true, some (.error errAlreadyRunning)⟩
      rw [Bool.or_true]
      unfold callInv
      refine ⟨by simp, by simp, by simp, by simp, ?_, by simp, ?_⟩
      · intro e he
        simp only [Option.some.injEq, Except.error.injEq] at he
        exact ⟨he.symm, rfl, by simp⟩
      · intro hh
        exact absurd (h7 hh) (by simp)
  | done =>
    show callInv session rid (stR || false) ⟨.done, con, res⟩
    rw [Bool.or_false]
    exact ⟨h1, h2, h3, h4, h5, h6, h7⟩

/-- One phase of a call preserves the invariant of the other call. -/
theorem startPhase_inv_other (session : Option Nat) (rid rid2 : Nat) (stR2 : Bool)
    (c c2 : StartCall) (hne : rid ≠ rid2)
    (h2 : callInv session rid2 stR2 c2) :
    callInv (startPhase session rid c).1 rid2 stR2 c2 := by
  obtain ⟨g1, g2, g3, g4, g5, g6, g7⟩ := h2
  rcases startPhase_session_cases session rid c with hs | ⟨hnone, hs⟩
  · rw [hs]
    exact ⟨g1, g2, g3, g4, g5, g6, g7⟩
  · subst hnone
    rw [hs]
    refine ⟨g1, g2, g3, ?_, ?_, g6, ?_⟩
    · intro r hr
      exact absurd (g4 r hr).1 (by simp)
    · intro e he
      exact absurd (g5 e he).2.1 (by simp)
    · intro hh
      rw [Option.some.injEq] at hh
      exact absurd hh hne

/-- One scheduled phase preserves the race invariant. -/
theorem raceStep_preserves_inv (st : RaceState) (i : Bool) (h : RaceInv st) :
    RaceInv (raceStep st i) := by
  obtain ⟨h0, h1, hs⟩ := h
  cases i with
  | false =>
    refine ⟨startPhase_inv_self st.session 0 st.stopped0 st.call0 h0,
      startPhase_inv_other st.session 0 1 st.stopped1 st.call0 st.call1 (by simp) h1, ?_⟩
    rcases startPhase_session_cases st.session 0 st.call0 with hc | ⟨_, hc⟩
    · rw [show (raceStep st false).session = (startPhase st.session 0 st.call0).1 from rfl, hc]
      exact hs
    · rw [show (raceStep st false).session = (startPhase st.session 0 st.call0).1 from rfl, hc]
      exact .inr (.inl rfl)
  | true =>
    refine ⟨startPhase_inv_other st.session 1 0 st.stopped0 st.call1 st.call0 (by simp) h0,
      startPhase_inv_self st.session 1 st.stopped1 st.call1 h1, ?_⟩
    rcases startPhase_session_cases st.session 1 st.call1 with hc | ⟨_, hc⟩
    · rw [show (raceStep st true).session = (startPhase st.session 1 st.call1).1 from rfl, hc]
      exact hs
    · rw [show (raceStep st true).session = (startPhase st.session 1 st.call1).1 from rfl, hc]
      exact .inr (.inr rfl)

/-- The race invariant holds along every schedule from the empty
slot. -/
theorem raceExec_inv (sched : List Bool) :
    ∀ st : RaceState, RaceInv st → RaceInv (raceExec st sched) := by
  induction sched with
  | nil => exact fun st h => h
  | cons i rest ih => exact fun st h => ih (raceStep st i) (raceStep_preserves_inv st i h)

/-- The race invariant holds initially. -/
theorem raceInv_init : RaceInv initRace := by
  unfold RaceInv callInv
  exact ⟨⟨by simp [initRace], by simp [initRace], by simp [initRace], by simp [initRace],
      by simp [initRace], by simp [initRace], by simp [initRace]⟩,
    ⟨by simp [initRace], by simp [initRace], by simp [initRace], by simp [initRace],
      by simp [initRace], by simp [initRace], by simp [initRace]⟩, .inl rfl⟩

/-- A successful outcome names a concrete ok result. -/
theorem isOkStart_iff (o : Option (Except RPCErr Nat)) :
    isOkStart o = true ↔ ∃ r, o = some (.ok r) := by
  cases o with
  | none => simp [isOkStart]
  | some v =>
    cases v with
    | ok r => simp [isOkStart]
    | error e => simp [isOkStart]

/-- C1: the single-session start protocol is race-safe — under every
interleaving of the atomic phases of two concurrent ext.start calls
from an empty slot, at most one call succeeds; every failure carries
error 4001; a loser that had already constructed its backend runtime
has that runtime stopped; a stopped runtime is never the installed
session; when both calls have completed, exactly one succeeded; and a
call that begins while a session already exists fails with 4001. -/
theorem single_session_start_race (sched : List Bool) :
    (isOkStart (raceExec initRace sched).call0.res = true →
      isOkStart (raceExec initRace sched).call1.res = true → False) ∧
    (∀ e, (raceExec initRace sched).call0.res = some (.error e) → e = errAlreadyRunning) ∧
    (∀ e, (raceExec initRace sched).call1.res = some (.error e) → e = errAlreadyRunning) ∧
    ((raceExec initRace sched).call0.res = some (.error errAlreadyRunning) →
      (raceExec initRace sched).call0.constructed = true →
      (raceExec initRace sched).stopped0 = true) ∧
    ((raceExec initRace sched).call1.res = some (.error errAlreadyRunning) →
      (raceExec initRace sched).call1.constructed = true →
      (raceExec initRace sched).stopped1 = true) ∧
    ((raceExec initRace sched).stopped0 = true → (raceExec initRace sched).session ≠ some 0) ∧
    ((raceExec initRace sched).stopped1 = true → (raceExec initRace sched).session ≠ some 1) ∧
    ((raceExec initRace sched).call0.res ≠ none → (raceExec initRace sched).call1.res ≠ none →
      (isOkStart (raceExec initRace sched).call0.res = true ↔
        isOkStart (raceExec initRace sched).call1.res = false)) ∧
    (raceExec busyRace [false, false, false]).call0.res = some (.error errAlreadyRunning) := by
  obtain ⟨⟨a1, a2, a3, a4, a5, a6, a7⟩, ⟨b1, b2, b3, b4, b5, b6, b7⟩, hs⟩ :=
    raceExec_inv sched initRace raceInv_init
  refine ⟨?_, ?_, ?_, ?_, ?_, ?_, ?_, ?_, by decide⟩
  · intro hok0 hok1
    obtain ⟨r0, hr0⟩ := (isOkStart_iff _).mp hok0
    obtain ⟨r1, hr1⟩ := (isOkStart_iff _).mp hok1
    have hsess0 := (a4 r0 hr0).1
    have hsess1 := (b4 r1 hr1).1
    rw [hsess0, Option.some.injEq] at hsess1
    cases hsess1
  · exact fun e he => (a5 e he).1
  · exact fun e he => (b5 e he).1
  · exact fun hres hcon => (a5 errAlreadyRunning hres).2.2 hcon
  · exact fun hres hcon => (b5 errAlreadyRunning hres).2.2 hcon
  · intro hst heq
    have := a7 heq
    rw [a6 hst] at this
    cases (Option.some.injEq _ _).mp this
  · intro hst heq
    have := b7 heq
    rw [b6 hst] at this
    cases (Option.some.injEq _ _).mp this
  · intro hr0 hr1
    constructor
    · intro hok0
      cases hne1 : isOkStart (raceExec initRace sched).call1.res with
      | false => rfl
      | true =>
        obtain ⟨r0, h0⟩ := (isOkStart_iff _).mp hok0
        obtain ⟨r1, h1⟩ := (isOkStart_iff _).mp hne1
        have hsess0 := (a4 r0 h0).1
        have hsess1 := (b4 r1 h1).1
        rw [hsess0, Option.some.injEq] at hsess1
        cases hsess1
    · intro hnot1
      cases hok0 : isOkStart (raceExec initRace sched).call0.res with
      | true => rfl
      | false =>
        exfalso
        obtain ⟨v0, hv0⟩ := Option.ne_none_iff_exists'.mp hr0
        obtain ⟨v1, hv1⟩ := Option.ne_none_iff_exists'.mp hr1
        cases v0 with
        | ok r =>
          rw [hv0] at hok0
          simp [isOkStart] at hok0
        | error e0 =>
          cases v1 with
          | ok r =>
            rw [hv1] at hnot1
            simp [isOkStart] at hnot1
          | error e1 =>
            have hsome := (a5 e0 hv0).2.1
            rcases hs with hn | h0 | h1
            · rw [hn] at hsome
              cases hsome
            · have := a7 h0
              rw [hv0] at this
              cases this
            · have := b7 h1
              rw [hv1] at this
              cases this

/-- Witness for C1: in the fully interleaved schedule both calls pass
the first check, call zero installs first, call one is refused with
4001 and its runtime is stopped; and the sequential second start
against an existing session is refused with 4001. -/
theorem single_session_start_race_witness :
    ((raceExec initRace [false, true, false, true, false, true]).call1.res =
      some (.error errAlreadyRunning) →
        (raceExec initRace [false, true, false, true, false, true]).call1.constructed = true →
        (raceExec initRace [false, true, false, true, false, true]).stopped1 = true) ∧
    (isOkStart (raceExec initRace [false, true, false, true, false, true]).call0.res = true ↔
      isOkStart (raceExec initRace [false, true, false, true, false, true]).call1.res = false) ∧
    (raceExec busyRace [false, false, false]).call0.res = some (.error errAlreadyRunning) := by
  have h := single_session_start_race [false, true, false, true, false, true]
  exact ⟨h.2.2.2.2.1, h.2.2.2.2.2.2.2.1 (by decide) (by decide), h.2.2.2.2.2.2.2.2⟩

end TermRelay
